import Mathlib

/-
Verification development for the GitHub MCP tool adapter.

The repository contains two near-duplicate implementations of the adapter:
  * githubclaude.py  -- asynchronous variant (httpx), central helper
    make_github_request that converts every exception to None;
  * github_server.py -- synchronous variant (requests), per-operation
    try/except around the call.

The embedding below models:
  * JSON values (JValue) together with the pieces of Python semantics the
    code relies on: truthiness (`if not data`), dict.get with a default,
    and str() rendering of values inside f-strings;
  * the HTTP layer as an oracle `net : Request -> HttpOutcome` supplied by
    the environment; an outcome is either a raised transport exception or
    a response carrying a numeric status, the message of the HTTPError
    that raise_for_status would raise for it, and a body that either
    parses to a JValue or makes .json() raise;
  * each tool operation as a function of that oracle returning
    `Except String String`: `.ok s` models the operation returning the
    string s, `.error e` models an uncaught Python exception escaping the
    operation (e.g. AttributeError from calling .get on a non-dict).

Conventions carried over from the source, noted where they matter:
  * httpx's raise_for_status raises exactly on non-2xx statuses;
    requests' raise_for_status raises exactly on 4xx/5xx statuses.
    (1xx/3xx statuses are consumed by the client layer under the default
    configuration of both libraries and never reach this code.)
  * requests' Response.json() failure (requests.exceptions.JSONDecodeError)
    is a subclass of requests.RequestException and is caught by the
    per-operation handler; httpx's .json() failure is caught by the bare
    `except Exception` in make_github_request.
  * The triple-quoted f-strings are wrapped in .strip(); the embedding
    builds the stripped string directly.
-/

namespace GitHubMcp

/-- JSON values as produced by Response.json(): null, booleans, strings,
integers, arrays and objects (objects keep insertion order, keys unique). -/
inductive JValue where
  | null
  | bool (b : Bool)
  | str (s : String)
  | int (n : Int)
  | arr (elems : List JValue)
  | obj (fields : List (String × JValue))

/-- The ASCII single-quote character used by Python repr of strings. -/
def quoteChar : String := String.singleton (Char.ofNat 39)

mutual

/-- Python repr() of a JSON value (str(None) = "None", str(True) = "True",
containers render their elements with repr). Escaping inside repr of
strings is not modelled; no operation output depends on it. -/
def pyRepr : JValue → String
  | .null => "None"
  | .bool true => "True"
  | .bool false => "False"
  | .str s => quoteChar ++ s ++ quoteChar
  | .int n => toString n
  | .arr es => "[" ++ pyReprElems es ++ "]"
  | .obj fs => "\x7b" ++ pyReprFields fs ++ "\x7d"

/-- Comma-separated repr of array elements. -/
def pyReprElems : List JValue → String
  | [] => ""
  | [v] => pyRepr v
  | v :: vs => pyRepr v ++ ", " ++ pyReprElems vs

/-- Comma-separated repr of object fields. -/
def pyReprFields : List (String × JValue) → String
  | [] => ""
  | [(k, v)] => quoteChar ++ k ++ quoteChar ++ ": " ++ pyRepr v
  | (k, v) :: fs => quoteChar ++ k ++ quoteChar ++ ": " ++ pyRepr v ++ ", " ++ pyReprFields fs

end

/-- Python str() of a JSON value, as used to splice values into f-strings:
strings render as themselves, everything else as its repr. -/
def pyStr : JValue → String
  | .str s => s
  | v => pyRepr v

/-- Python truthiness of a JSON value: None, False, 0, "", [] and an
object with no keys are falsy, everything else is truthy. -/
def pyFalsy : JValue → Bool
  | .null => true
  | .bool b => !b
  | .str s => s = ""
  | .int n => n = 0
  | .arr es => es.isEmpty
  | .obj fs => fs.isEmpty

/-- Python dict.get(key, default) on the field list of a JSON object:
the stored value when the key is present (even when that value is null),
the default otherwise. -/
def pyGetD (fields : List (String × JValue)) (key : String) (d : JValue) : JValue :=
  (fields.lookup key).getD d

/-- An outbound HTTP request as assembled by an operation. -/
structure Request where
  method : String
  url : String
  headers : List (String × String)
  body : Option JValue

/-- The body of an HTTP response, as seen through Response.json():
either it parses to a JSON value or .json() raises (empty body,
non-JSON payload); the carried string is the raised exception's text. -/
inductive RespBody where
  | malformed (emsg : String)
  | json (v : JValue)

/-- The outcome of performing one HTTP request: either the client call
itself raised (DNS failure, refused connection, timeout, ...) with the
given exception text, or a response arrived with the given status code,
the text of the HTTPError that raise_for_status would raise for it, and
a body. -/
inductive HttpOutcome where
  | transportError (emsg : String)
  | response (status : Nat) (emsg : String) (body : RespBody)

/-- The network oracle: what outcome the environment produces for each
request. Every operation is a function of such an oracle. -/
def Net : Type := Request → HttpOutcome

/-- Success statuses: httpx's raise_for_status raises exactly when the
status is not 2xx. -/
def is2xx (s : Nat) : Bool := 200 ≤ s && s < 300

/-- requests' raise_for_status raises exactly for 4xx/5xx statuses. -/
def requestsRaises (s : Nat) : Bool := 400 ≤ s

/-- GitHub API base URL (both variants). -/
def GITHUB_API_BASE : String := "https://api.github.com"

/-- User-Agent header value of the asynchronous variant. -/
def USER_AGENT : String := "github-mcp-client/1.0"

/-- Exception text for AttributeError raised by .get on a non-dict value. -/
def attrErrorMsg : String := "AttributeError: value has no attribute get"

/-- Exception text for slicing/iterating a truthy non-list response. -/
def sliceErrorMsg : String := "TypeError: response value is not a list"

/-- Payload sent by create_repository in both variants:
\x7b"name": name, "description": description, "private": private\x7d. -/
def createRepoPayload (name description : String) (priv : Bool) : JValue :=
  .obj [("name", .str name), ("description", .str description), ("private", .bool priv)]

/-- Payload sent by create_pull_request in both variants. -/
def createPrPayload (title head base body : String) : JValue :=
  .obj [("title", .str title), ("head", .str head), ("base", .str base), ("body", .str body)]

/-- Payload sent by merge_pull_request in both variants: the
commit_message key is added only when the string is truthy (non-empty). -/
def mergePayload (commit_message : String) : JValue :=
  if commit_message = "" then .obj [] else .obj [("commit_message", .str commit_message)]

/-- Rendering of the user summary f-string shared verbatim by both
variants, on an object body; .get on a non-dict raises AttributeError. -/
def userStr (fs : List (String × JValue)) : String :=
  "User: " ++ pyStr (pyGetD fs "name" (.str "N/A"))
    ++ " (@" ++ pyStr (pyGetD fs "login" .null) ++ ")"
    ++ "\nBio: " ++ pyStr (pyGetD fs "bio" (.str "N/A"))
    ++ "\nPublic Repos: " ++ pyStr (pyGetD fs "public_repos" (.int 0))
    ++ "\nFollowers: " ++ pyStr (pyGetD fs "followers" (.int 0))
    ++ "\nFollowing: " ++ pyStr (pyGetD fs "following" (.int 0))
    ++ "\nLocation: " ++ pyStr (pyGetD fs "location" (.str "N/A"))
    ++ "\nCompany: " ++ pyStr (pyGetD fs "company" (.str "N/A"))
    ++ "\nCreated: " ++ pyStr (pyGetD fs "created_at" (.str "N/A"))

/-- Formatting of the user-info response body: the f-string calls .get on
it, which raises unless the body is a dict. -/
def formatUserData : JValue → Except String String
  | .obj fs => .ok (userStr fs)
  | _ => .error attrErrorMsg

/-- Rendering of the created-repository summary shared by both variants. -/
def repoCreatedStr (fs : List (String × JValue)) : String :=
  "Repository created successfully!"
    ++ "\nName: " ++ pyStr (pyGetD fs "full_name" .null)
    ++ "\nURL: " ++ pyStr (pyGetD fs "html_url" .null)
    ++ "\nDescription: " ++ pyStr (pyGetD fs "description" (.str "N/A"))
    ++ "\nPrivate: " ++ pyStr (pyGetD fs "private" (.bool false))

/-- Formatting of the create-repository response body. -/
def formatRepoCreated : JValue → Except String String
  | .obj fs => .ok (repoCreatedStr fs)
  | _ => .error attrErrorMsg

/-- Rendering of the created-pull-request summary shared by both variants. -/
def prCreatedStr (fs : List (String × JValue)) : String :=
  "Pull Request created successfully!"
    ++ "\nTitle: " ++ pyStr (pyGetD fs "title" .null)
    ++ "\nPR #: " ++ pyStr (pyGetD fs "number" .null)
    ++ "\nURL: " ++ pyStr (pyGetD fs "html_url" .null)
    ++ "\nState: " ++ pyStr (pyGetD fs "state" .null)

/-- Formatting of the create-pull-request response body. -/
def formatPrCreated : JValue → Except String String
  | .obj fs => .ok (prCreatedStr fs)
  | _ => .error attrErrorMsg

/-- Rendering of the merged-pull-request summary shared by both variants. -/
def prMergedStr (pull_number : Int) (fs : List (String × JValue)) : String :=
  "Pull Request #" ++ toString pull_number ++ " merged successfully!"
    ++ "\nMessage: " ++ pyStr (pyGetD fs "message" .null)
    ++ "\nSHA: " ++ pyStr (pyGetD fs "sha" .null)

/-- Formatting of the merge-pull-request response body. -/
def formatPrMerged (pull_number : Int) : JValue → Except String String
  | .obj fs => .ok (prMergedStr pull_number fs)
  | _ => .error attrErrorMsg

/-- Rendering of one repository entry of list_repositories, shared
verbatim by both variants: "- full_name: description (html_url)". -/
def repoEntryStr (fs : List (String × JValue)) : String :=
  "- " ++ pyStr (pyGetD fs "full_name" .null)
    ++ ": " ++ pyStr (pyGetD fs "description" (.str "No description"))
    ++ " (" ++ pyStr (pyGetD fs "html_url" .null) ++ ")"

/-- The loop body of list_repositories applied to one entry: .get on a
non-dict entry raises AttributeError. -/
def repoEntry : JValue → Except String String
  | .obj fs => .ok (repoEntryStr fs)
  | _ => .error attrErrorMsg

/-- The for-loop of list_repositories over the (already truncated) entry
list, stopping at the first entry that raises. -/
def buildRepoLines : List JValue → Except String (List String)
  | [] => .ok []
  | v :: vs =>
    match repoEntry v with
    | .error e => .error e
    | .ok line =>
      match buildRepoLines vs with
      | .error e => .error e
      | .ok rest => .ok (line :: rest)

/-- The trailing truncation note of list_repositories: appended exactly
when more than 10 entries were returned. -/
def showingNote (total : Nat) : String :=
  if total > 10 then "\n\n(Showing 10 of " ++ toString total ++ " repositories)" else ""

/-- Formatting of a truthy list_repositories body, shared verbatim by
both variants: repos[:10] is rendered line by line and joined; a truthy
non-list body raises when sliced/iterated. -/
def formatRepoList : JValue → Except String String
  | .arr es =>
    (match buildRepoLines (es.take 10) with
     | .error e => .error e
     | .ok lines =>
        .ok ("Repositories:\n" ++ String.intercalate "\n" lines ++ showingNote es.length))
  | _ => .error sliceErrorMsg

end GitHubMcp

namespace GithubClaude

open GitHubMcp

/-- Headers of the asynchronous variant: User-Agent and Accept always,
Authorization "Bearer pat" added when GITHUB_PAT is set and non-empty
(`if GITHUB_PAT:` is a truthiness test). -/
def asyncHeaders (pat : Option String) : List (String × String) :=
  [("User-Agent", USER_AGENT), ("Accept", "application/vnd.github+json")]
    ++ (match pat with
        | some t => if t = "" then [] else [("Authorization", "Bearer " ++ t)]
        | none => [])

/-- The request assembled by make_github_request from a method, an
endpoint and an optional JSON payload. -/
def mkRequest (pat : Option String) (method endpoint : String) (json : Option JValue) : Request :=
  { method := method
    url := GITHUB_API_BASE ++ endpoint
    headers := asyncHeaders pat
    body := json }

/-- The helper's Python return value for a parsed 2xx body: JSON null
parses to the Python object None, which is the very value the exception
path returns, so a caller cannot tell the two apart; in the Option model
both map to none. -/
def asReturned : JValue → Option JValue
  | .null => none
  | v => some v

/-- make_github_request: performs the request and returns the parsed JSON
body of a 2xx response; every exception (transport error, the HTTPError
raised by raise_for_status on a non-2xx status, a .json() parse failure)
is caught by the bare `except Exception` and becomes None — and a 2xx
body parsing to JSON null is returned as that same None. -/
def make_github_request (net : Net) (pat : Option String)
    (method endpoint : String) (json : Option JValue) : Option JValue :=
  match net (mkRequest pat method endpoint json) with
  | .transportError _ => none
  | .response s _ b =>
    if is2xx s then
      match b with
      | .json v => asReturned v
      | .malformed _ => none
    else none

/-- Tool github_user_info of the asynchronous variant. -/
def github_user_info (net : Net) (pat : Option String) (username : String) :
    Except String String :=
  match make_github_request net pat "GET" ("/users/" ++ username) none with
  | none => .ok "Error fetching user info."
  | some data =>
    if pyFalsy data then .ok "Error fetching user info."
    else formatUserData data

/-- Tool create_repository of the asynchronous variant. -/
def create_repository (net : Net) (pat : Option String)
    (name description : String) (priv : Bool) : Except String String :=
  match make_github_request net pat "POST" "/user/repos"
      (some (createRepoPayload name description priv)) with
  | none => .ok "Error creating repository."
  | some data =>
    if pyFalsy data then .ok "Error creating repository."
    else formatRepoCreated data

/-- Tool delete_repository of the asynchronous variant: the test is
`if data is None`, so a None helper result (which is what every failure
produces, but also what a 2xx empty-body or JSON-null-body success
produces) yields the confirmation string, and a 2xx response with a
body parsing to anything other than null yields the error string. -/
def delete_repository (net : Net) (pat : Option String) (owner repo : String) :
    Except String String :=
  match make_github_request net pat "DELETE" ("/repos/" ++ owner ++ "/" ++ repo) none with
  | none => .ok ("Repository " ++ owner ++ "/" ++ repo ++ " was deleted successfully!")
  | some _ => .ok "Error deleting repository."

/-- Tool create_pull_request of the asynchronous variant. -/
def create_pull_request (net : Net) (pat : Option String)
    (owner repo title head base body : String) : Except String String :=
  match make_github_request net pat "POST" ("/repos/" ++ owner ++ "/" ++ repo ++ "/pulls")
      (some (createPrPayload title head base body)) with
  | none => .ok "Error creating pull request."
  | some data =>
    if pyFalsy data then .ok "Error creating pull request."
    else formatPrCreated data

/-- Tool merge_pull_request of the asynchronous variant. -/
def merge_pull_request (net : Net) (pat : Option String)
    (owner repo : String) (pull_number : Int) (commit_message : String) :
    Except String String :=
  match make_github_request net pat "PUT"
      ("/repos/" ++ owner ++ "/" ++ repo ++ "/pulls/" ++ toString pull_number ++ "/merge")
      (some (mergePayload commit_message)) with
  | none => .ok "Error merging pull request."
  | some data =>
    if pyFalsy data then .ok "Error merging pull request."
    else formatPrMerged pull_number data

/-- Endpoint selected by list_repositories: /users/username/repos when a
username is given (truthy), /user/repos otherwise. -/
def listEndpoint (username : String) : String :=
  if username = "" then "/user/repos" else "/users/" ++ username ++ "/repos"

/-- Tool list_repositories of the asynchronous variant: `if not repos`
covers both a None helper result (any failure) and a falsy parsed body
(in particular an empty list), and both receive the same message. -/
def list_repositories (net : Net) (pat : Option String) (username : String) :
    Except String String :=
  match make_github_request net pat "GET" (listEndpoint username) none with
  | none => .ok "No repositories found or error occurred."
  | some repos =>
    if pyFalsy repos then .ok "No repositories found or error occurred."
    else formatRepoList repos

/-- Tool hello_world of the asynchronous variant: purely local. -/
def hello_world (name : String) : String := "Hello, " ++ name ++ "!"

end GithubClaude

namespace GithubServer

open GitHubMcp

/-- Headers of the synchronous variant: Authorization "token pat" when
GITHUB_PAT is set and non-empty, no headers otherwise. -/
def syncHeaders (pat : Option String) : List (String × String) :=
  match pat with
  | some t => if t = "" then [] else [("Authorization", "token " ++ t)]
  | none => []

/-- Request builder of the synchronous variant (it spells out full URLs). -/
def mkRequest (pat : Option String) (method url : String) (json : Option JValue) : Request :=
  { method := method, url := url, headers := syncHeaders pat, body := json }

/-- Tool github_user_info of the synchronous variant: requests.get,
raise_for_status, .json(), format; every requests.RequestException
(transport error, HTTPError, JSONDecodeError) is caught and rendered
with its text. -/
def get_user_info (net : Net) (pat : Option String) (username : String) :
    Except String String :=
  match net (mkRequest pat "GET" ("https://api.github.com/users/" ++ username) none) with
  | .transportError e => .ok ("Error fetching user info: " ++ e)
  | .response s e b =>
    if requestsRaises s then .ok ("Error fetching user info: " ++ e)
    else
      match b with
      | .malformed e2 => .ok ("Error fetching user info: " ++ e2)
      | .json v => formatUserData v

/-- Tool create_repository of the synchronous variant. -/
def create_repository (net : Net) (pat : Option String)
    (name description : String) (priv : Bool) : Except String String :=
  match net (mkRequest pat "POST" "https://api.github.com/user/repos"
      (some (createRepoPayload name description priv))) with
  | .transportError e => .ok ("Error creating repository: " ++ e)
  | .response s e b =>
    if requestsRaises s then .ok ("Error creating repository: " ++ e)
    else
      match b with
      | .malformed e2 => .ok ("Error creating repository: " ++ e2)
      | .json v => formatRepoCreated v

/-- Tool delete_repository of the synchronous variant: raise_for_status
then the confirmation string; the body is never parsed. -/
def delete_repository (net : Net) (pat : Option String) (owner repo : String) :
    Except String String :=
  match net (mkRequest pat "DELETE"
      ("https://api.github.com/repos/" ++ owner ++ "/" ++ repo) none) with
  | .transportError e => .ok ("Error deleting repository: " ++ e)
  | .response s e _ =>
    if requestsRaises s then .ok ("Error deleting repository: " ++ e)
    else .ok ("Repository " ++ owner ++ "/" ++ repo ++ " was deleted successfully!")

/-- Tool create_pull_request of the synchronous variant. -/
def create_pull_request (net : Net) (pat : Option String)
    (owner repo title head base body : String) : Except String String :=
  match net (mkRequest pat "POST"
      ("https://api.github.com/repos/" ++ owner ++ "/" ++ repo ++ "/pulls")
      (some (createPrPayload title head base body))) with
  | .transportError e => .ok ("Error creating pull request: " ++ e)
  | .response s e b =>
    if requestsRaises s then .ok ("Error creating pull request: " ++ e)
    else
      match b with
      | .malformed e2 => .ok ("Error creating pull request: " ++ e2)
      | .json v => formatPrCreated v

/-- Tool merge_pull_request of the synchronous variant. -/
def merge_pull_request (net : Net) (pat : Option String)
    (owner repo : String) (pull_number : Int) (commit_message : String) :
    Except String String :=
  match net (mkRequest pat "PUT"
      ("https://api.github.com/repos/" ++ owner ++ "/" ++ repo ++ "/pulls/"
        ++ toString pull_number ++ "/merge")
      (some (mergePayload commit_message))) with
  | .transportError e => .ok ("Error merging pull request: " ++ e)
  | .response s e b =>
    if requestsRaises s then .ok ("Error merging pull request: " ++ e)
    else
      match b with
      | .malformed e2 => .ok ("Error merging pull request: " ++ e2)
      | .json v => formatPrMerged pull_number v

/-- URL selected by the synchronous list_repositories. -/
def listUrl (username : String) : String :=
  if username = "" then "https://api.github.com/user/repos"
  else "https://api.github.com/users/" ++ username ++ "/repos"

/-- Tool list_repositories of the synchronous variant: a falsy parsed
body (in particular an empty list) yields "No repositories found.",
failures yield an error string carrying the exception text. -/
def list_repositories (net : Net) (pat : Option String) (username : String) :
    Except String String :=
  match net (mkRequest pat "GET" (listUrl username) none) with
  | .transportError e => .ok ("Error listing repositories: " ++ e)
  | .response s e b =>
    if requestsRaises s then .ok ("Error listing repositories: " ++ e)
    else
      match b with
      | .malformed e2 => .ok ("Error listing repositories: " ++ e2)
      | .json v =>
        if pyFalsy v then .ok "No repositories found."
        else formatRepoList v

/-- Tool hello_world of the synchronous variant: purely local. -/
def hello_world (name : String) : String := "Hello, " ++ name ++ "!"

end GithubServer

namespace GitHubMcp

/-- Error marker check: does the string start with the five characters
of "Error"? -/
def errMarked (s : String) : Bool := s.data.take 5 == "Error".data

/-- Classification of an operation result by the error marker; an
uncaught exception carries no marker. -/
def errOut : Except String String → Bool
  | .ok s => errMarked s
  | .error _ => false

/-- Did the operation return a string (as opposed to an exception
escaping it)? -/
def isOk : Except String String → Bool
  | .ok _ => true
  | .error _ => false

/-- Is the value a JSON object (a Python dict, on which .get succeeds)? -/
def isObjB : JValue → Bool
  | .obj _ => true
  | _ => false

/-- Is the value a JSON array all of whose entries are objects (the shape
list_repositories can iterate without raising)? -/
def okListB : JValue → Bool
  | .arr es => es.all isObjB
  | _ => false

theorem errMarked_append (p r : String) (h : 5 ≤ p.data.length) :
    errMarked (p ++ r) = errMarked p := by
  unfold errMarked
  rw [String.data_append, List.take_append_of_le_length h]

theorem buildRepoLines_map (ys : List (List (String × JValue))) :
    buildRepoLines (ys.map .obj) = .ok (ys.map repoEntryStr) := by
  induction ys with
  | nil => rfl
  | cons y ys ih => simp [buildRepoLines, repoEntry, ih]

theorem repositories_ne_noRepos (r : String) :
    "Repositories:\n" ++ r ≠ "No repositories found." := by
  intro h
  have h2 := congrArg String.data h
  simp [String.data_append] at h2

theorem asReturned_of_not_falsy (v : JValue) (h : pyFalsy v = false) :
    GithubClaude.asReturned v = some v := by
  cases v <;> simp_all [GithubClaude.asReturned, pyFalsy]

theorem asReturned_of_ne_null (v : JValue) (h : v ≠ .null) :
    GithubClaude.asReturned v = some v := by
  cases v <;> simp_all [GithubClaude.asReturned]

end GitHubMcp

open GitHubMcp

/-- C6: merge_pull_request builds a request body that omits the
commit-message field when commit_message is the empty string and
contains the field with the input value when it is non-empty; both
variants send exactly that payload and consult the network only at the
request carrying it. -/
theorem C6_merge_commit_message_payload :
    (mergePayload "" = .obj []) ∧
    (∀ m : String, m ≠ "" → mergePayload m = .obj [("commit_message", .str m)]) ∧
    (∀ (pat : Option String) (owner repo : String) (pn : Int) (m : String),
      (GithubClaude.mkRequest pat "PUT"
          ("/repos/" ++ owner ++ "/" ++ repo ++ "/pulls/" ++ toString pn ++ "/merge")
          (some (mergePayload m))).body = some (mergePayload m)) ∧
    (∀ (pat : Option String) (owner repo : String) (pn : Int) (m : String)
        (net net' : Net),
      net (GithubClaude.mkRequest pat "PUT"
          ("/repos/" ++ owner ++ "/" ++ repo ++ "/pulls/" ++ toString pn ++ "/merge")
          (some (mergePayload m)))
        = net' (GithubClaude.mkRequest pat "PUT"
            ("/repos/" ++ owner ++ "/" ++ repo ++ "/pulls/" ++ toString pn ++ "/merge")
            (some (mergePayload m))) →
      GithubClaude.merge_pull_request net pat owner repo pn m
        = GithubClaude.merge_pull_request net' pat owner repo pn m) ∧
    (∀ (pat : Option String) (owner repo : String) (pn : Int) (m : String),
      (GithubServer.mkRequest pat "PUT"
          ("https://api.github.com/repos/" ++ owner ++ "/" ++ repo ++ "/pulls/"
            ++ toString pn ++ "/merge")
          (some (mergePayload m))).body = some (mergePayload m)) ∧
    (∀ (pat : Option String) (owner repo : String) (pn : Int) (m : String)
        (net net' : Net),
      net (GithubServer.mkRequest pat "PUT"
          ("https://api.github.com/repos/" ++ owner ++ "/" ++ repo ++ "/pulls/"
            ++ toString pn ++ "/merge")
          (some (mergePayload m)))
        = net' (GithubServer.mkRequest pat "PUT"
            ("https://api.github.com/repos/" ++ owner ++ "/" ++ repo ++ "/pulls/"
              ++ toString pn ++ "/merge")
            (some (mergePayload m))) →
      GithubServer.merge_pull_request net pat owner repo pn m
        = GithubServer.merge_pull_request net' pat owner repo pn m) := by
  refine ⟨by simp [mergePayload], fun m hm => by simp [mergePayload, hm],
    fun _ _ _ _ _ => rfl, ?_, fun _ _ _ _ _ => rfl, ?_⟩
  · intro pat owner repo pn m net net' h
    simp only [GithubClaude.merge_pull_request, GithubClaude.make_github_request, h]
  · intro pat owner repo pn m net net' h
    simp only [GithubServer.merge_pull_request, h]

/-- C6 witness: at the concrete commit messages "" and "Done" the payload
omits resp. contains the commit_message field. -/
theorem C6_merge_commit_message_payload_witness :
    mergePayload "" = .obj []
      ∧ mergePayload "Done" = .obj [("commit_message", .str "Done")] :=
  ⟨C6_merge_commit_message_payload.1,
   C6_merge_commit_message_payload.2.1 "Done" (by decide)⟩

/-- C9: in the asynchronous variant, a 2xx response whose JSON body is an
empty object is reported with the operation's fixed error string,
indistinguishable from a transport failure or a non-2xx rejection, for
github_user_info, create_repository, create_pull_request and
merge_pull_request. -/
theorem C9_async_falsy_body_indistinguishable :
    ∀ (pat : Option String)
      (username name description owner repo title head base prBody : String)
      (priv : Bool) (pn : Int) (m e : String) (sOk sBad : Nat) (b : RespBody),
    is2xx sOk = true → is2xx sBad = false →
    (GithubClaude.github_user_info (fun _ => .transportError e) pat username
        = .ok "Error fetching user info."
      ∧ GithubClaude.github_user_info (fun _ => .response sBad e b) pat username
        = .ok "Error fetching user info."
      ∧ GithubClaude.github_user_info (fun _ => .response sOk e (.json (.obj []))) pat username
        = .ok "Error fetching user info.") ∧
    (GithubClaude.create_repository (fun _ => .transportError e) pat name description priv
        = .ok "Error creating repository."
      ∧ GithubClaude.create_repository (fun _ => .response sBad e b) pat name description priv
        = .ok "Error creating repository."
      ∧ GithubClaude.create_repository (fun _ => .response sOk e (.json (.obj []))) pat name description priv
        = .ok "Error creating repository.") ∧
    (GithubClaude.create_pull_request (fun _ => .transportError e) pat owner repo title head base prBody
        = .ok "Error creating pull request."
      ∧ GithubClaude.create_pull_request (fun _ => .response sBad e b) pat owner repo title head base prBody
        = .ok "Error creating pull request."
      ∧ GithubClaude.create_pull_request (fun _ => .response sOk e (.json (.obj []))) pat owner repo title head base prBody
        = .ok "Error creating pull request.") ∧
    (GithubClaude.merge_pull_request (fun _ => .transportError e) pat owner repo pn m
        = .ok "Error merging pull request."
      ∧ GithubClaude.merge_pull_request (fun _ => .response sBad e b) pat owner repo pn m
        = .ok "Error merging pull request."
      ∧ GithubClaude.merge_pull_request (fun _ => .response sOk e (.json (.obj []))) pat owner repo pn m
        = .ok "Error merging pull request.") := by
  intro pat username name description owner repo title head base prBody priv pn m e sOk sBad b h1 h2
  refine ⟨⟨rfl, ?_, ?_⟩, ⟨rfl, ?_, ?_⟩, ⟨rfl, ?_, ?_⟩, ⟨rfl, ?_, ?_⟩⟩ <;>
    simp [GithubClaude.github_user_info, GithubClaude.create_repository,
      GithubClaude.create_pull_request, GithubClaude.merge_pull_request,
      GithubClaude.make_github_request, GithubClaude.asReturned, h1, h2, pyFalsy]

/-- C9 witness: github_user_info at a concrete transport failure, a
concrete 404 rejection and a concrete 2xx empty-object body returns the
same fixed error string. -/
theorem C9_async_falsy_body_indistinguishable_witness :
    GithubClaude.github_user_info (fun _ => .transportError "boom") none "octocat"
        = .ok "Error fetching user info."
      ∧ GithubClaude.github_user_info (fun _ => .response 404 "nf" (.malformed "x")) none "octocat"
        = .ok "Error fetching user info."
      ∧ GithubClaude.github_user_info (fun _ => .response 200 "ok" (.json (.obj []))) none "octocat"
        = .ok "Error fetching user info." :=
  (C9_async_falsy_body_indistinguishable none "octocat" "n" "d" "o" "r" "t" "h" "b" "pb"
    false 1 "m" "boom" 200 404 (.malformed "x") (by decide) (by decide)).1

/-- C10: a field that is present in the response object but null is
rendered literally as "None", not as the documented placeholder; the
placeholder default applies only when the key is missing. Stated on the
.get path used by every formatter and end-to-end on both variants
(a null bio in user info, a null description in a repository entry). -/
theorem C10_null_field_renders_None :
    (∀ fs : List (String × JValue), fs.lookup "bio" = some .null →
      pyStr (pyGetD fs "bio" (.str "N/A")) = "None") ∧
    (∀ fs : List (String × JValue), fs.lookup "bio" = none →
      pyStr (pyGetD fs "bio" (.str "N/A")) = "N/A") ∧
    (∀ fs : List (String × JValue), fs.lookup "description" = some .null →
      pyStr (pyGetD fs "description" (.str "No description")) = "None") ∧
    (∀ (pat : Option String) (u e : String),
      GithubClaude.github_user_info
          (fun _ => .response 200 e (.json (.obj [("login", .str "octo"), ("bio", .null)]))) pat u
        = .ok ("User: N/A (@octo)\nBio: None\nPublic Repos: 0\nFollowers: 0"
            ++ "\nFollowing: 0\nLocation: N/A\nCompany: N/A\nCreated: N/A")) ∧
    (∀ (pat : Option String) (u e : String),
      GithubServer.list_repositories
          (fun _ => .response 200 e
            (.json (.arr [.obj [("full_name", .str "o/r"), ("description", .null)]]))) pat u
        = .ok "Repositories:\n- o/r: None (None)") := by
  refine ⟨?_, ?_, ?_, fun _ _ _ => rfl, fun _ _ _ => rfl⟩
  · intro fs h
    simp only [pyGetD, h]
    rfl
  · intro fs h
    simp only [pyGetD, h]
    rfl
  · intro fs h
    simp only [pyGetD, h]
    rfl

/-- C10 witness: at a concrete field list holding a null bio the rendered
value is "None", and at one missing the key it is the placeholder. -/
theorem C10_null_field_renders_None_witness :
    pyStr (pyGetD [("bio", JValue.null)] "bio" (.str "N/A")) = "None"
      ∧ pyStr (pyGetD [("id", JValue.int 1)] "bio" (.str "N/A")) = "N/A" :=
  ⟨C10_null_field_renders_None.1 [("bio", JValue.null)] rfl,
   C10_null_field_renders_None.2.1 [("id", JValue.int 1)] rfl⟩

/-- C7: a successful get_user_info response is rendered as the
multi-line summary showing name, login, bio, public repo count,
followers, following, location, company and creation date, and every
one of these fields that is absent from the response object is rendered
as its placeholder (N/A for the textual fields, None for login, 0 for
the counters). -/
theorem C7_user_info_fields :
    (∀ (pat : Option String) (u e : String) (s : Nat)
        (fs : List (String × JValue)) (net : Net),
      is2xx s = true →
      net (GithubClaude.mkRequest pat "GET" ("/users/" ++ u) none)
        = .response s e (.json (.obj fs)) →
      pyFalsy (.obj fs) = false →
      GithubClaude.github_user_info net pat u = .ok (userStr fs)) ∧
    (∀ (pat : Option String) (u e : String) (s : Nat)
        (fs : List (String × JValue)) (net : Net),
      requestsRaises s = false →
      net (GithubServer.mkRequest pat "GET" ("https://api.github.com/users/" ++ u) none)
        = .response s e (.json (.obj fs)) →
      GithubServer.get_user_info net pat u = .ok (userStr fs)) ∧
    (∀ fs : List (String × JValue),
      fs.lookup "name" = none → fs.lookup "login" = none → fs.lookup "bio" = none →
      fs.lookup "public_repos" = none → fs.lookup "followers" = none →
      fs.lookup "following" = none → fs.lookup "location" = none →
      fs.lookup "company" = none → fs.lookup "created_at" = none →
      userStr fs = ("User: N/A (@None)\nBio: N/A\nPublic Repos: 0\nFollowers: 0"
        ++ "\nFollowing: 0\nLocation: N/A\nCompany: N/A\nCreated: N/A")) := by
  refine ⟨?_, ?_, ?_⟩
  · intro pat u e s fs net h2xx hnet hfal
    simp [GithubClaude.github_user_info, GithubClaude.make_github_request, hnet, h2xx, hfal,
      asReturned_of_not_falsy _ hfal, formatUserData]
  · intro pat u e s fs net hnr hnet
    simp [GithubServer.get_user_info, hnet, hnr, formatUserData]
  · intro fs h1 h2 h3 h4 h5 h6 h7 h8 h9
    simp only [userStr, pyGetD, h1, h2, h3, h4, h5, h6, h7, h8, h9]
    rfl

/-- C7 witness: a concrete 200 response whose object carries none of the
nine fields is rendered with every placeholder. -/
theorem C7_user_info_fields_witness :
    GithubClaude.github_user_info
        (fun _ => .response 200 "" (.json (.obj [("id", .int 1)]))) none "ghost"
      = .ok (userStr [("id", .int 1)])
      ∧ userStr [("id", JValue.int 1)]
        = ("User: N/A (@None)\nBio: N/A\nPublic Repos: 0\nFollowers: 0"
            ++ "\nFollowing: 0\nLocation: N/A\nCompany: N/A\nCreated: N/A") :=
  ⟨C7_user_info_fields.1 none "ghost" "" 200 [("id", .int 1)] _ (by decide) rfl rfl,
   C7_user_info_fields.2.2 [("id", .int 1)] rfl rfl rfl rfl rfl rfl rfl rfl rfl⟩

/-- C8: create_repository sends a request body whose private field equals
the input, both variants consult the network only at the request
carrying that payload, and on success the returned string is determined
by the response object alone, its Private line rendering the response's
private flag (not the input). -/
theorem C8_create_repository_private_flag :
    (∀ (n d : String) (p : Bool),
      createRepoPayload n d p
        = .obj [("name", .str n), ("description", .str d), ("private", .bool p)]) ∧
    (∀ (n d : String) (p : Bool),
      ([("name", JValue.str n), ("description", JValue.str d), ("private", JValue.bool p)]
        : List (String × JValue)).lookup "private" = some (.bool p)) ∧
    (∀ (pat : Option String) (n d : String) (p : Bool) (net net' : Net),
      net (GithubClaude.mkRequest pat "POST" "/user/repos" (some (createRepoPayload n d p)))
        = net' (GithubClaude.mkRequest pat "POST" "/user/repos" (some (createRepoPayload n d p))) →
      GithubClaude.create_repository net pat n d p
        = GithubClaude.create_repository net' pat n d p) ∧
    (∀ (pat : Option String) (n d : String) (p : Bool) (net net' : Net),
      net (GithubServer.mkRequest pat "POST" "https://api.github.com/user/repos"
          (some (createRepoPayload n d p)))
        = net' (GithubServer.mkRequest pat "POST" "https://api.github.com/user/repos"
            (some (createRepoPayload n d p))) →
      GithubServer.create_repository net pat n d p
        = GithubServer.create_repository net' pat n d p) ∧
    (∀ (pat : Option String) (n d : String) (p : Bool) (s : Nat) (e : String)
        (fs : List (String × JValue)) (net : Net),
      is2xx s = true →
      net (GithubClaude.mkRequest pat "POST" "/user/repos" (some (createRepoPayload n d p)))
        = .response s e (.json (.obj fs)) →
      pyFalsy (.obj fs) = false →
      GithubClaude.create_repository net pat n d p = .ok (repoCreatedStr fs)) ∧
    (∀ (pat : Option String) (n d : String) (p : Bool) (s : Nat) (e : String)
        (fs : List (String × JValue)) (net : Net),
      requestsRaises s = false →
      net (GithubServer.mkRequest pat "POST" "https://api.github.com/user/repos"
          (some (createRepoPayload n d p)))
        = .response s e (.json (.obj fs)) →
      GithubServer.create_repository net pat n d p = .ok (repoCreatedStr fs)) ∧
    (∀ (fs : List (String × JValue)) (q : Bool),
      fs.lookup "private" = some (.bool q) →
      pyStr (pyGetD fs "private" (.bool false)) = (if q then "True" else "False")) := by
  refine ⟨fun _ _ _ => rfl, fun _ _ _ => rfl, ?_, ?_, ?_, ?_, ?_⟩
  · intro pat n d p net net' h
    simp only [GithubClaude.create_repository, GithubClaude.make_github_request, h]
  · intro pat n d p net net' h
    simp only [GithubServer.create_repository, h]
  · intro pat n d p s e fs net h2xx hnet hfal
    simp [GithubClaude.create_repository, GithubClaude.make_github_request, hnet, h2xx, hfal,
      asReturned_of_not_falsy _ hfal, formatRepoCreated]
  · intro pat n d p s e fs net hnr hnet
    simp [GithubServer.create_repository, hnet, hnr, formatRepoCreated]
  · intro fs q h
    simp only [pyGetD, h]
    cases q <;> rfl

/-- C8 witness: with input private = true and a mocked response whose
private flag is false, the operation succeeds and the Private line
renders False, the value the server returned. -/
theorem C8_create_repository_private_flag_witness :
    GithubClaude.create_repository
        (fun _ => .response 201 "" (.json (.obj [("private", .bool false)]))) none "n" "" true
      = .ok (repoCreatedStr [("private", .bool false)])
      ∧ pyStr (pyGetD [("private", JValue.bool false)] "private" (.bool false)) = "False" :=
  ⟨C8_create_repository_private_flag.2.2.2.2.1 none "n" "" true 201 ""
      [("private", .bool false)] _ (by decide) rfl rfl,
   C8_create_repository_private_flag.2.2.2.2.2.2 [("private", JValue.bool false)] false rfl⟩

namespace GitHubMcp

theorem not_requestsRaises_of_is2xx (s : Nat) (h : is2xx s = true) :
    requestsRaises s = false := by
  unfold is2xx at h
  unfold requestsRaises
  simp only [Bool.and_eq_true, decide_eq_true_eq] at h
  simp only [decide_eq_false_iff_not]
  omega

theorem formatRepoList_map (ys : List (List (String × JValue))) :
    formatRepoList (.arr (ys.map .obj)) =
      .ok ("Repositories:\n" ++ String.intercalate "\n" ((ys.take 10).map repoEntryStr)
        ++ showingNote ys.length) := by
  simp only [formatRepoList]
  rw [← List.map_take, buildRepoLines_map]
  simp

theorem map_obj_not_falsy (ys : List (List (String × JValue))) (h : 0 < ys.length) :
    pyFalsy (.arr (ys.map .obj)) = false := by
  cases ys with
  | nil => simp at h
  | cons a l => rfl

end GitHubMcp

/-- Convenience lemma: a successful (2xx) asynchronous list_repositories
call with a truthy parsed body reaches the shared list formatter. -/
theorem asyncList_success (net : Net) (pat : Option String) (u e : String)
    (s : Nat) (v : JValue) (h2xx : is2xx s = true)
    (hnet : net (GithubClaude.mkRequest pat "GET" (GithubClaude.listEndpoint u) none)
      = .response s e (.json v))
    (hfal : pyFalsy v = false) :
    GithubClaude.list_repositories net pat u = formatRepoList v := by
  simp [GithubClaude.list_repositories, GithubClaude.make_github_request, hnet, h2xx, hfal,
    asReturned_of_not_falsy _ hfal]

/-- Convenience lemma: a successful synchronous list_repositories call
with a truthy parsed body reaches the shared list formatter. -/
theorem syncList_success (net : Net) (pat : Option String) (u e : String)
    (s : Nat) (v : JValue) (hnr : requestsRaises s = false)
    (hnet : net (GithubServer.mkRequest pat "GET" (GithubServer.listUrl u) none)
      = .response s e (.json v))
    (hfal : pyFalsy v = false) :
    GithubServer.list_repositories net pat u = formatRepoList v := by
  simp [GithubServer.list_repositories, hnet, hnr, hfal]

/-- C5: on a successful response carrying n repository objects, both
variants return the header plus one formatted entry line per repository
in order, truncated to the first 10; when n exceeds 10 a trailing note
states that 10 of n are shown, and when n is at most 10 all n entries
appear and no note is appended. -/
theorem C5_list_truncation :
    ∀ (ys : List (List (String × JValue))) (pat : Option String) (u e : String) (s : Nat),
    is2xx s = true →
    ((10 < ys.length →
      ((ys.take 10).map repoEntryStr).length = 10 ∧
      (∀ net : Net,
        net (GithubClaude.mkRequest pat "GET" (GithubClaude.listEndpoint u) none)
          = .response s e (.json (.arr (ys.map .obj))) →
        GithubClaude.list_repositories net pat u
          = .ok ("Repositories:\n" ++ String.intercalate "\n" ((ys.take 10).map repoEntryStr)
              ++ "\n\n(Showing 10 of " ++ toString ys.length ++ " repositories)")) ∧
      (∀ net : Net,
        net (GithubServer.mkRequest pat "GET" (GithubServer.listUrl u) none)
          = .response s e (.json (.arr (ys.map .obj))) →
        GithubServer.list_repositories net pat u
          = .ok ("Repositories:\n" ++ String.intercalate "\n" ((ys.take 10).map repoEntryStr)
              ++ "\n\n(Showing 10 of " ++ toString ys.length ++ " repositories)"))) ∧
     (0 < ys.length → ys.length ≤ 10 →
      (ys.map repoEntryStr).length = ys.length ∧
      (∀ net : Net,
        net (GithubClaude.mkRequest pat "GET" (GithubClaude.listEndpoint u) none)
          = .response s e (.json (.arr (ys.map .obj))) →
        GithubClaude.list_repositories net pat u
          = .ok ("Repositories:\n" ++ String.intercalate "\n" (ys.map repoEntryStr))) ∧
      (∀ net : Net,
        net (GithubServer.mkRequest pat "GET" (GithubServer.listUrl u) none)
          = .response s e (.json (.arr (ys.map .obj))) →
        GithubServer.list_repositories net pat u
          = .ok ("Repositories:\n" ++ String.intercalate "\n" (ys.map repoEntryStr))))) := by
  intro ys pat u e s h2xx
  have hnr : requestsRaises s = false := not_requestsRaises_of_is2xx s h2xx
  constructor
  · intro hgt
    have hfal : pyFalsy (.arr (ys.map .obj)) = false :=
      map_obj_not_falsy ys (by omega)
    refine ⟨?_, ?_, ?_⟩
    · rw [List.length_map, List.length_take]
      omega
    · intro net hnet
      rw [asyncList_success net pat u e s _ h2xx hnet hfal, formatRepoList_map]
      simp [showingNote, hgt, String.append_assoc]
    · intro net hnet
      rw [syncList_success net pat u e s _ hnr hnet hfal, formatRepoList_map]
      simp [showingNote, hgt, String.append_assoc]
  · intro hpos hle
    have hfal : pyFalsy (.arr (ys.map .obj)) = false := map_obj_not_falsy ys hpos
    refine ⟨List.length_map ys repoEntryStr, ?_, ?_⟩
    · intro net hnet
      rw [asyncList_success net pat u e s _ h2xx hnet hfal, formatRepoList_map,
        List.take_of_length_le hle]
      simp [showingNote, Nat.not_lt.mpr hle]
    · intro net hnet
      rw [syncList_success net pat u e s _ hnr hnet hfal, formatRepoList_map,
        List.take_of_length_le hle]
      simp [showingNote, Nat.not_lt.mpr hle]

/-- C5 witness: a 15-entry mocked collection yields exactly the first 10
entry lines plus the note stating 10 of 15, and a 3-entry collection
yields its 3 lines and no note. -/
theorem C5_list_truncation_witness :
    ((((List.replicate 15 [("full_name", JValue.str "octo/repo")]).take 10).map
        repoEntryStr).length = 10
      ∧ GithubClaude.list_repositories
          (fun _ => .response 200 ""
            (.json (.arr ((List.replicate 15 [("full_name", JValue.str "octo/repo")]).map .obj))))
          none ""
        = .ok ("Repositories:\n"
            ++ String.intercalate "\n"
              (((List.replicate 15 [("full_name", JValue.str "octo/repo")]).take 10).map
                repoEntryStr)
            ++ "\n\n(Showing 10 of "
            ++ toString (List.replicate 15 [("full_name", JValue.str "octo/repo")]).length
            ++ " repositories)"))
    ∧ ((List.replicate 3 [("full_name", JValue.str "octo/repo")]).map repoEntryStr).length = 3
    ∧ GithubServer.list_repositories
        (fun _ => .response 200 ""
          (.json (.arr ((List.replicate 3 [("full_name", JValue.str "octo/repo")]).map .obj))))
        none ""
      = .ok ("Repositories:\n"
          ++ String.intercalate "\n"
            ((List.replicate 3 [("full_name", JValue.str "octo/repo")]).map repoEntryStr)) := by
  have h15 := (C5_list_truncation (List.replicate 15 [("full_name", JValue.str "octo/repo")])
    none "" "" 200 (by decide)).1 (by decide)
  have h3 := (C5_list_truncation (List.replicate 3 [("full_name", JValue.str "octo/repo")])
    none "" "" 200 (by decide)).2 (by decide) (by decide)
  exact ⟨⟨h15.1, h15.2.1 _ rfl⟩, h3.1, h3.2.2 _ rfl⟩

/-- C1 counterexample: the claim says a failed remote DELETE yields a
formatted error string in both variants, but in the asynchronous variant
a thrown transport exception makes the helper return None, which the
operation reads as success: it returns the confirmation string. -/
theorem C1_delete_counterexample :
    GithubClaude.delete_repository (fun _ => .transportError "connection refused")
        none "alice" "repo1"
      = .ok "Repository alice/repo1 was deleted successfully!" := rfl

/-- C1 amended: in the synchronous variant the table contract holds (a
transport error or 4xx/5xx status yields the formatted error string, a
2xx response yields the confirmation naming owner/repo); in the
asynchronous variant success is detected by the helper returning None,
so every failed call (transport error or non-2xx status) and a 2xx
response whose body does not parse or parses to JSON null return the
confirmation string, while a 2xx response whose body parses to any
JSON value other than null returns the error string. -/
theorem C1_delete_contract_amended :
    (∀ (pat : Option String) (owner repo e : String) (net : Net),
      net (GithubServer.mkRequest pat "DELETE"
          ("https://api.github.com/repos/" ++ owner ++ "/" ++ repo) none)
        = .transportError e →
      GithubServer.delete_repository net pat owner repo
        = .ok ("Error deleting repository: " ++ e)) ∧
    (∀ (pat : Option String) (owner repo e : String) (s : Nat) (b : RespBody) (net : Net),
      requestsRaises s = true →
      net (GithubServer.mkRequest pat "DELETE"
          ("https://api.github.com/repos/" ++ owner ++ "/" ++ repo) none)
        = .response s e b →
      GithubServer.delete_repository net pat owner repo
        = .ok ("Error deleting repository: " ++ e)) ∧
    (∀ (pat : Option String) (owner repo e : String) (s : Nat) (b : RespBody) (net : Net),
      is2xx s = true →
      net (GithubServer.mkRequest pat "DELETE"
          ("https://api.github.com/repos/" ++ owner ++ "/" ++ repo) none)
        = .response s e b →
      GithubServer.delete_repository net pat owner repo
        = .ok ("Repository " ++ owner ++ "/" ++ repo ++ " was deleted successfully!")) ∧
    (∀ (pat : Option String) (owner repo e : String) (net : Net),
      net (GithubClaude.mkRequest pat "DELETE" ("/repos/" ++ owner ++ "/" ++ repo) none)
        = .transportError e →
      GithubClaude.delete_repository net pat owner repo
        = .ok ("Repository " ++ owner ++ "/" ++ repo ++ " was deleted successfully!")) ∧
    (∀ (pat : Option String) (owner repo e : String) (s : Nat) (b : RespBody) (net : Net),
      is2xx s = false →
      net (GithubClaude.mkRequest pat "DELETE" ("/repos/" ++ owner ++ "/" ++ repo) none)
        = .response s e b →
      GithubClaude.delete_repository net pat owner repo
        = .ok ("Repository " ++ owner ++ "/" ++ repo ++ " was deleted successfully!")) ∧
    (∀ (pat : Option String) (owner repo e m : String) (s : Nat) (net : Net),
      is2xx s = true →
      net (GithubClaude.mkRequest pat "DELETE" ("/repos/" ++ owner ++ "/" ++ repo) none)
        = .response s e (.malformed m) →
      GithubClaude.delete_repository net pat owner repo
        = .ok ("Repository " ++ owner ++ "/" ++ repo ++ " was deleted successfully!")) ∧
    (∀ (pat : Option String) (owner repo e : String) (s : Nat) (net : Net),
      is2xx s = true →
      net (GithubClaude.mkRequest pat "DELETE" ("/repos/" ++ owner ++ "/" ++ repo) none)
        = .response s e (.json .null) →
      GithubClaude.delete_repository net pat owner repo
        = .ok ("Repository " ++ owner ++ "/" ++ repo ++ " was deleted successfully!")) ∧
    (∀ (pat : Option String) (owner repo e : String) (s : Nat) (v : JValue) (net : Net),
      is2xx s = true →
      v ≠ .null →
      net (GithubClaude.mkRequest pat "DELETE" ("/repos/" ++ owner ++ "/" ++ repo) none)
        = .response s e (.json v) →
      GithubClaude.delete_repository net pat owner repo
        = .ok "Error deleting repository.") := by
  refine ⟨?_, ?_, ?_, ?_, ?_, ?_, ?_, ?_⟩
  · intro pat owner repo e net h
    simp [GithubServer.delete_repository, h]
  · intro pat owner repo e s b net hr h
    simp [GithubServer.delete_repository, h, hr]
  · intro pat owner repo e s b net h2 h
    simp [GithubServer.delete_repository, h, not_requestsRaises_of_is2xx s h2]
  · intro pat owner repo e net h
    simp [GithubClaude.delete_repository, GithubClaude.make_github_request, h]
  · intro pat owner repo e s b net h2 h
    simp [GithubClaude.delete_repository, GithubClaude.make_github_request, h, h2]
  · intro pat owner repo e m s net h2 h
    simp [GithubClaude.delete_repository, GithubClaude.make_github_request, h, h2]
  · intro pat owner repo e s net h2 h
    simp [GithubClaude.delete_repository, GithubClaude.make_github_request,
      GithubClaude.asReturned, h, h2]
  · intro pat owner repo e s v net h2 hv h
    simp [GithubClaude.delete_repository, GithubClaude.make_github_request, h, h2,
      asReturned_of_ne_null v hv]

/-- C1 witness: concrete instances of the amended contract at a
transport failure, a 404, a 204 success, a 200 JSON-null body and a 200
object body. -/
theorem C1_delete_contract_amended_witness :
    GithubServer.delete_repository (fun _ => .transportError "refused") none "o" "r"
        = .ok "Error deleting repository: refused"
      ∧ GithubServer.delete_repository
          (fun _ => .response 404 "404 Client Error" (.malformed "x")) none "o" "r"
        = .ok "Error deleting repository: 404 Client Error"
      ∧ GithubServer.delete_repository
          (fun _ => .response 204 "" (.malformed "no content")) none "o" "r"
        = .ok "Repository o/r was deleted successfully!"
      ∧ GithubClaude.delete_repository
          (fun _ => .response 200 "" (.json .null)) none "o" "r"
        = .ok "Repository o/r was deleted successfully!"
      ∧ GithubClaude.delete_repository
          (fun _ => .response 200 "" (.json (.obj [("ok", .bool true)]))) none "o" "r"
        = .ok "Error deleting repository." :=
  ⟨C1_delete_contract_amended.1 none "o" "r" "refused" _ rfl,
   C1_delete_contract_amended.2.1 none "o" "r" "404 Client Error" 404 (.malformed "x") _
     (by decide) rfl,
   C1_delete_contract_amended.2.2.1 none "o" "r" "" 204 (.malformed "no content") _
     (by decide) rfl,
   C1_delete_contract_amended.2.2.2.2.2.2.1 none "o" "r" "" 200 _
     (by decide) rfl,
   C1_delete_contract_amended.2.2.2.2.2.2.2 none "o" "r" "" 200 (.obj [("ok", .bool true)]) _
     (by decide) (by simp) rfl⟩

/-- C2 counterexample: the claim requires the no-repositories message if
and only if the remote call succeeded with an empty collection, with an
error string on failed calls; in the asynchronous variant a failed call
(here a thrown transport exception) returns the very message that a
successful empty collection produces. -/
theorem C2_list_empty_counterexample :
    GithubClaude.list_repositories (fun _ => .transportError "boom") none ""
        = .ok "No repositories found or error occurred."
      ∧ GithubClaude.list_repositories
          (fun _ => .response 200 "" (.json (.arr []))) none ""
        = .ok "No repositories found or error occurred." := ⟨rfl, rfl⟩

/-- C2 amended: in the synchronous variant, when the call succeeds with a
JSON array, "No repositories found." is returned if and only if the
array is empty, and failed calls return an error string; in the
asynchronous variant the message "No repositories found or error
occurred." is returned both on a successful empty collection and on
every failed call, so there the biconditional fails. -/
theorem C2_list_empty_iff_amended :
    (∀ (pat : Option String) (u e : String) (s : Nat) (xs : List JValue) (net : Net),
      is2xx s = true →
      net (GithubServer.mkRequest pat "GET" (GithubServer.listUrl u) none)
        = .response s e (.json (.arr xs)) →
      (GithubServer.list_repositories net pat u = .ok "No repositories found." ↔ xs = [])) ∧
    (∀ (pat : Option String) (u e : String) (net : Net),
      net (GithubServer.mkRequest pat "GET" (GithubServer.listUrl u) none)
        = .transportError e →
      GithubServer.list_repositories net pat u
        = .ok ("Error listing repositories: " ++ e)) ∧
    (∀ (pat : Option String) (u e : String) (s : Nat) (b : RespBody) (net : Net),
      requestsRaises s = true →
      net (GithubServer.mkRequest pat "GET" (GithubServer.listUrl u) none)
        = .response s e b →
      GithubServer.list_repositories net pat u
        = .ok ("Error listing repositories: " ++ e)) ∧
    (∀ (pat : Option String) (u e : String),
      GithubClaude.list_repositories (fun _ => .transportError e) pat u
        = .ok "No repositories found or error occurred.") ∧
    (∀ (pat : Option String) (u e : String) (s : Nat),
      is2xx s = true →
      GithubClaude.list_repositories (fun _ => .response s e (.json (.arr []))) pat u
        = .ok "No repositories found or error occurred.") := by
  refine ⟨?_, ?_, ?_, fun _ _ _ => rfl, ?_⟩
  · intro pat u e s xs net h2xx hnet
    have hnr := not_requestsRaises_of_is2xx s h2xx
    cases xs with
    | nil =>
      simp [GithubServer.list_repositories, hnet, hnr, pyFalsy]
    | cons x xs2 =>
      rw [syncList_success net pat u e s _ hnr hnet rfl]
      simp only [formatRepoList]
      constructor
      · intro h
        exfalso
        cases hbl : buildRepoLines ((x :: xs2).take 10) with
        | error e2 => rw [hbl] at h; exact Except.noConfusion h
        | ok lines =>
          rw [hbl] at h
          have hstr := Except.ok.inj h
          rw [String.append_assoc] at hstr
          exact repositories_ne_noRepos _ hstr
      · intro h
        exact List.noConfusion h
  · intro pat u e net hnet
    simp [GithubServer.list_repositories, hnet]
  · intro pat u e s b net hr hnet
    simp [GithubServer.list_repositories, hnet, hr]
  · intro pat u e s h2xx
    simp [GithubClaude.list_repositories, GithubClaude.make_github_request,
      GithubClaude.asReturned, h2xx, pyFalsy]

/-- C2 witness: the synchronous variant returns the message at a concrete
empty 200 collection, does not return it at a concrete one-entry
collection, and returns an error string at a concrete transport
failure. -/
theorem C2_list_empty_iff_amended_witness :
    GithubServer.list_repositories
        (fun _ => .response 200 "" (.json (.arr []))) none ""
      = .ok "No repositories found."
      ∧ ¬ (GithubServer.list_repositories
            (fun _ => .response 200 "" (.json (.arr [.obj [("full_name", .str "o/r")]]))) none ""
          = .ok "No repositories found.")
      ∧ GithubServer.list_repositories (fun _ => .transportError "boom") none ""
        = .ok "Error listing repositories: boom" :=
  ⟨(C2_list_empty_iff_amended.1 none "" "" 200 [] _ (by decide) rfl).mpr rfl,
   fun h => List.noConfusion
     ((C2_list_empty_iff_amended.1 none "" "" 200 [.obj [("full_name", .str "o/r")]] _
       (by decide) rfl).mp h),
   C2_list_empty_iff_amended.2.1 none "" "boom" _ rfl⟩

namespace GitHubMcp

theorem errMarked_error_prefix (p e : String) (h5 : 5 ≤ p.data.length)
    (hp : errMarked p = true) : errMarked (p ++ e) = true := by
  rw [errMarked_append p e h5]
  exact hp

theorem errMarked_userStr (fs : List (String × JValue)) :
    errMarked (userStr fs) = false := by
  simp only [userStr, String.append_assoc]
  rw [errMarked_append "User: " _ (by decide)]
  decide

theorem errMarked_repoCreatedStr (fs : List (String × JValue)) :
    errMarked (repoCreatedStr fs) = false := by
  simp only [repoCreatedStr, String.append_assoc]
  rw [errMarked_append "Repository created successfully!" _ (by decide)]
  decide

theorem errMarked_prCreatedStr (fs : List (String × JValue)) :
    errMarked (prCreatedStr fs) = false := by
  simp only [prCreatedStr, String.append_assoc]
  rw [errMarked_append "Pull Request created successfully!" _ (by decide)]
  decide

theorem errMarked_prMergedStr (pn : Int) (fs : List (String × JValue)) :
    errMarked (prMergedStr pn fs) = false := by
  simp only [prMergedStr, String.append_assoc]
  rw [errMarked_append "Pull Request #" _ (by decide)]
  decide

theorem errMarked_deleteConfirm (o r : String) :
    errMarked ("Repository " ++ o ++ "/" ++ r ++ " was deleted successfully!") = false := by
  simp only [String.append_assoc]
  rw [errMarked_append "Repository " _ (by decide)]
  decide

theorem errMarked_repoHeader (r : String) :
    errMarked ("Repositories:\n" ++ r) = false := by
  rw [errMarked_append "Repositories:\n" _ (by decide)]
  decide

theorem errOut_formatUserData (v : JValue) : errOut (formatUserData v) = false := by
  cases v with
  | obj fs => simp [formatUserData, errOut, errMarked_userStr]
  | null => rfl
  | bool b => rfl
  | str s => rfl
  | int n => rfl
  | arr es => rfl

theorem errOut_formatRepoCreated (v : JValue) : errOut (formatRepoCreated v) = false := by
  cases v with
  | obj fs => simp [formatRepoCreated, errOut, errMarked_repoCreatedStr]
  | null => rfl
  | bool b => rfl
  | str s => rfl
  | int n => rfl
  | arr es => rfl

theorem errOut_formatPrCreated (v : JValue) : errOut (formatPrCreated v) = false := by
  cases v with
  | obj fs => simp [formatPrCreated, errOut, errMarked_prCreatedStr]
  | null => rfl
  | bool b => rfl
  | str s => rfl
  | int n => rfl
  | arr es => rfl

theorem errOut_formatPrMerged (pn : Int) (v : JValue) :
    errOut (formatPrMerged pn v) = false := by
  cases v with
  | obj fs => simp [formatPrMerged, errOut, errMarked_prMergedStr]
  | null => rfl
  | bool b => rfl
  | str s => rfl
  | int n => rfl
  | arr es => rfl

theorem errOut_formatRepoList (v : JValue) : errOut (formatRepoList v) = false := by
  cases v with
  | arr es =>
    simp only [formatRepoList]
    cases hbl : buildRepoLines (es.take 10) with
    | error e2 => rfl
    | ok lines =>
      simp only [errOut]
      rw [String.append_assoc]
      exact errMarked_repoHeader _
  | null => rfl
  | bool b => rfl
  | str s => rfl
  | int n => rfl
  | obj fs => rfl

theorem isOk_formatUserData (v : JValue) (h : isObjB v = true) :
    isOk (formatUserData v) = true := by
  cases v <;> simp_all [formatUserData, isOk, isObjB]

theorem isOk_formatRepoCreated (v : JValue) (h : isObjB v = true) :
    isOk (formatRepoCreated v) = true := by
  cases v <;> simp_all [formatRepoCreated, isOk, isObjB]

theorem isOk_formatPrCreated (v : JValue) (h : isObjB v = true) :
    isOk (formatPrCreated v) = true := by
  cases v <;> simp_all [formatPrCreated, isOk, isObjB]

theorem isOk_formatPrMerged (pn : Int) (v : JValue) (h : isObjB v = true) :
    isOk (formatPrMerged pn v) = true := by
  cases v <;> simp_all [formatPrMerged, isOk, isObjB]

theorem all_isObjB_take (es : List JValue) (h : es.all isObjB = true) :
    (es.take 10).all isObjB = true := by
  rw [List.all_eq_true] at h ⊢
  intro x hx
  exact h x (List.take_subset _ _ hx)

theorem buildRepoLines_ok (es : List JValue) (h : es.all isObjB = true) :
    ∃ ls, buildRepoLines es = .ok ls := by
  induction es with
  | nil => exact ⟨[], rfl⟩
  | cons x xs ih =>
    rw [List.all_cons, Bool.and_eq_true] at h
    obtain ⟨hx, hxs⟩ := h
    obtain ⟨ls, hls⟩ := ih hxs
    cases x with
    | obj fs => exact ⟨repoEntryStr fs :: ls, by simp [buildRepoLines, repoEntry, hls]⟩
    | null => simp [isObjB] at hx
    | bool b => simp [isObjB] at hx
    | str s => simp [isObjB] at hx
    | int n => simp [isObjB] at hx
    | arr es2 => simp [isObjB] at hx

theorem isOk_formatRepoList (v : JValue) (h : okListB v = true) :
    isOk (formatRepoList v) = true := by
  cases v with
  | arr es =>
    simp only [formatRepoList]
    obtain ⟨ls, hls⟩ :=
      buildRepoLines_ok (es.take 10) (all_isObjB_take es (by simpa [okListB] using h))
    rw [hls]
    rfl
  | null => simp [okListB] at h
  | bool b => simp [okListB] at h
  | str s => simp [okListB] at h
  | int n => simp [okListB] at h
  | obj fs => simp [okListB] at h

/-- Outcome shape assumption for a call: when a 2xx (resp. non-raising)
response carries a parsed JSON body, that body has the shape the
operation's formatter can consume without raising. Transport errors,
rejected statuses and unparseable bodies are unrestricted. -/
def TameOutcome (succ : Nat → Bool) (shape : JValue → Bool) : HttpOutcome → Prop
  | .response s _ (.json v) => succ s = true → shape v = true
  | _ => True

end GitHubMcp

/-- C3 counterexample: the claim requires every failure string to be
distinguishable from every possible success string, but the asynchronous
delete_repository returns, on a thrown transport exception, exactly the
confirmation string a successful deletion (2xx with empty body) returns,
and it carries no Error marker. -/
theorem C3_error_marker_counterexample :
    GithubClaude.delete_repository (fun _ => .transportError "timeout") none "o" "r"
        = GithubClaude.delete_repository
            (fun _ => .response 204 "" (.malformed "no body")) none "o" "r"
      ∧ GithubClaude.delete_repository (fun _ => .transportError "timeout") none "o" "r"
        = .ok "Repository o/r was deleted successfully!"
      ∧ errMarked "Repository o/r was deleted successfully!" = false :=
  ⟨rfl, rfl, by decide⟩

/-- C3 amended: every simulated failure (transport exception; rejected
status: 4xx/5xx in the synchronous variant, any non-2xx in the
asynchronous one) makes every operation except hello_world return a
string, and that string starts with the "Error" marker while no
success-path string does — except the asynchronous delete_repository,
whose failure output is its success confirmation string, and the
asynchronous list_repositories, whose failure output is the unmarked
message it also returns for a successful empty collection. -/
theorem C3_error_marker_amended :
    (∀ (pat : Option String) (u e : String) (net : Net),
      net (GithubServer.mkRequest pat "GET" ("https://api.github.com/users/" ++ u) none)
        = .transportError e →
      errOut (GithubServer.get_user_info net pat u) = true) ∧
    (∀ (pat : Option String) (u e : String) (s : Nat) (b : RespBody) (net : Net),
      requestsRaises s = true →
      net (GithubServer.mkRequest pat "GET" ("https://api.github.com/users/" ++ u) none)
        = .response s e b →
      errOut (GithubServer.get_user_info net pat u) = true) ∧
    (∀ (pat : Option String) (u e : String) (s : Nat) (v : JValue) (net : Net),
      requestsRaises s = false →
      net (GithubServer.mkRequest pat "GET" ("https://api.github.com/users/" ++ u) none)
        = .response s e (.json v) →
      errOut (GithubServer.get_user_info net pat u) = false) ∧
    (∀ (pat : Option String) (n d e : String) (p : Bool) (net : Net),
      net (GithubServer.mkRequest pat "POST" "https://api.github.com/user/repos"
          (some (createRepoPayload n d p))) = .transportError e →
      errOut (GithubServer.create_repository net pat n d p) = true) ∧
    (∀ (pat : Option String) (n d e : String) (p : Bool) (s : Nat) (b : RespBody) (net : Net),
      requestsRaises s = true →
      net (GithubServer.mkRequest pat "POST" "https://api.github.com/user/repos"
          (some (createRepoPayload n d p))) = .response s e b →
      errOut (GithubServer.create_repository net pat n d p) = true) ∧
    (∀ (pat : Option String) (n d e : String) (p : Bool) (s : Nat) (v : JValue) (net : Net),
      requestsRaises s = false →
      net (GithubServer.mkRequest pat "POST" "https://api.github.com/user/repos"
          (some (createRepoPayload n d p))) = .response s e (.json v) →
      errOut (GithubServer.create_repository net pat n d p) = false) ∧
    (∀ (pat : Option String) (o r e : String) (net : Net),
      net (GithubServer.mkRequest pat "DELETE"
          ("https://api.github.com/repos/" ++ o ++ "/" ++ r) none) = .transportError e →
      errOut (GithubServer.delete_repository net pat o r) = true) ∧
    (∀ (pat : Option String) (o r e : String) (s : Nat) (b : RespBody) (net : Net),
      requestsRaises s = true →
      net (GithubServer.mkRequest pat "DELETE"
          ("https://api.github.com/repos/" ++ o ++ "/" ++ r) none) = .response s e b →
      errOut (GithubServer.delete_repository net pat o r) = true) ∧
    (∀ (pat : Option String) (o r e : String) (s : Nat) (b : RespBody) (net : Net),
      requestsRaises s = false →
      net (GithubServer.mkRequest pat "DELETE"
          ("https://api.github.com/repos/" ++ o ++ "/" ++ r) none) = .response s e b →
      errOut (GithubServer.delete_repository net pat o r) = false) ∧
    (∀ (pat : Option String) (o r t hd bs pb e : String) (net : Net),
      net (GithubServer.mkRequest pat "POST"
          ("https://api.github.com/repos/" ++ o ++ "/" ++ r ++ "/pulls")
          (some (createPrPayload t hd bs pb))) = .transportError e →
      errOut (GithubServer.create_pull_request net pat o r t hd bs pb) = true) ∧
    (∀ (pat : Option String) (o r t hd bs pb e : String) (s : Nat) (b : RespBody) (net : Net),
      requestsRaises s = true →
      net (GithubServer.mkRequest pat "POST"
          ("https://api.github.com/repos/" ++ o ++ "/" ++ r ++ "/pulls")
          (some (createPrPayload t hd bs pb))) = .response s e b →
      errOut (GithubServer.create_pull_request net pat o r t hd bs pb) = true) ∧
    (∀ (pat : Option String) (o r t hd bs pb e : String) (s : Nat) (v : JValue) (net : Net),
      requestsRaises s = false →
      net (GithubServer.mkRequest pat "POST"
          ("https://api.github.com/repos/" ++ o ++ "/" ++ r ++ "/pulls")
          (some (createPrPayload t hd bs pb))) = .response s e (.json v) →
      errOut (GithubServer.create_pull_request net pat o r t hd bs pb) = false) ∧
    (∀ (pat : Option String) (o r : String) (pn : Int) (m e : String) (net : Net),
      net (GithubServer.mkRequest pat "PUT"
          ("https://api.github.com/repos/" ++ o ++ "/" ++ r ++ "/pulls/"
            ++ toString pn ++ "/merge")
          (some (mergePayload m))) = .transportError e →
      errOut (GithubServer.merge_pull_request net pat o r pn m) = true) ∧
    (∀ (pat : Option String) (o r : String) (pn : Int) (m e : String) (s : Nat)
        (b : RespBody) (net : Net),
      requestsRaises s = true →
      net (GithubServer.mkRequest pat "PUT"
          ("https://api.github.com/repos/" ++ o ++ "/" ++ r ++ "/pulls/"
            ++ toString pn ++ "/merge")
          (some (mergePayload m))) = .response s e b →
      errOut (GithubServer.merge_pull_request net pat o r pn m) = true) ∧
    (∀ (pat : Option String) (o r : String) (pn : Int) (m e : String) (s : Nat)
        (v : JValue) (net : Net),
      requestsRaises s = false →
      net (GithubServer.mkRequest pat "PUT"
          ("https://api.github.com/repos/" ++ o ++ "/" ++ r ++ "/pulls/"
            ++ toString pn ++ "/merge")
          (some (mergePayload m))) = .response s e (.json v) →
      errOut (GithubServer.merge_pull_request net pat o r pn m) = false) ∧
    (∀ (pat : Option String) (u e : String) (net : Net),
      net (GithubServer.mkRequest pat "GET" (GithubServer.listUrl u) none)
        = .transportError e →
      errOut (GithubServer.list_repositories net pat u) = true) ∧
    (∀ (pat : Option String) (u e : String) (s : Nat) (b : RespBody) (net : Net),
      requestsRaises s = true →
      net (GithubServer.mkRequest pat "GET" (GithubServer.listUrl u) none)
        = .response s e b →
      errOut (GithubServer.list_repositories net pat u) = true) ∧
    (∀ (pat : Option String) (u e : String) (s : Nat) (v : JValue) (net : Net),
      requestsRaises s = false →
      net (GithubServer.mkRequest pat "GET" (GithubServer.listUrl u) none)
        = .response s e (.json v) →
      errOut (GithubServer.list_repositories net pat u) = false) ∧
    (∀ (pat : Option String) (mth ep e : String) (j : Option JValue) (net : Net),
      net (GithubClaude.mkRequest pat mth ep j) = .transportError e →
      GithubClaude.make_github_request net pat mth ep j = none) ∧
    (∀ (pat : Option String) (mth ep e : String) (j : Option JValue) (s : Nat)
        (b : RespBody) (net : Net),
      is2xx s = false →
      net (GithubClaude.mkRequest pat mth ep j) = .response s e b →
      GithubClaude.make_github_request net pat mth ep j = none) ∧
    (∀ (pat : Option String) (u : String) (net : Net),
      GithubClaude.make_github_request net pat "GET" ("/users/" ++ u) none = none →
      errOut (GithubClaude.github_user_info net pat u) = true) ∧
    (∀ (pat : Option String) (u e : String) (s : Nat) (v : JValue) (net : Net),
      is2xx s = true →
      net (GithubClaude.mkRequest pat "GET" ("/users/" ++ u) none)
        = .response s e (.json v) →
      pyFalsy v = false →
      errOut (GithubClaude.github_user_info net pat u) = false) ∧
    (∀ (pat : Option String) (n d : String) (p : Bool) (net : Net),
      GithubClaude.make_github_request net pat "POST" "/user/repos"
          (some (createRepoPayload n d p)) = none →
      errOut (GithubClaude.create_repository net pat n d p) = true) ∧
    (∀ (pat : Option String) (n d e : String) (p : Bool) (s : Nat) (v : JValue) (net : Net),
      is2xx s = true →
      net (GithubClaude.mkRequest pat "POST" "/user/repos" (some (createRepoPayload n d p)))
        = .response s e (.json v) →
      pyFalsy v = false →
      errOut (GithubClaude.create_repository net pat n d p) = false) ∧
    (∀ (pat : Option String) (o r t hd bs pb : String) (net : Net),
      GithubClaude.make_github_request net pat "POST" ("/repos/" ++ o ++ "/" ++ r ++ "/pulls")
          (some (createPrPayload t hd bs pb)) = none →
      errOut (GithubClaude.create_pull_request net pat o r t hd bs pb) = true) ∧
    (∀ (pat : Option String) (o r t hd bs pb e : String) (s : Nat) (v : JValue) (net : Net),
      is2xx s = true →
      net (GithubClaude.mkRequest pat "POST" ("/repos/" ++ o ++ "/" ++ r ++ "/pulls")
          (some (createPrPayload t hd bs pb))) = .response s e (.json v) →
      pyFalsy v = false →
      errOut (GithubClaude.create_pull_request net pat o r t hd bs pb) = false) ∧
    (∀ (pat : Option String) (o r : String) (pn : Int) (m : String) (net : Net),
      GithubClaude.make_github_request net pat "PUT"
          ("/repos/" ++ o ++ "/" ++ r ++ "/pulls/" ++ toString pn ++ "/merge")
          (some (mergePayload m)) = none →
      errOut (GithubClaude.merge_pull_request net pat o r pn m) = true) ∧
    (∀ (pat : Option String) (o r : String) (pn : Int) (m e : String) (s : Nat)
        (v : JValue) (net : Net),
      is2xx s = true →
      net (GithubClaude.mkRequest pat "PUT"
          ("/repos/" ++ o ++ "/" ++ r ++ "/pulls/" ++ toString pn ++ "/merge")
          (some (mergePayload m))) = .response s e (.json v) →
      pyFalsy v = false →
      errOut (GithubClaude.merge_pull_request net pat o r pn m) = false) ∧
    (∀ (pat : Option String) (o r : String) (net : Net),
      GithubClaude.make_github_request net pat "DELETE" ("/repos/" ++ o ++ "/" ++ r) none
        = none →
      GithubClaude.delete_repository net pat o r
          = .ok ("Repository " ++ o ++ "/" ++ r ++ " was deleted successfully!")
        ∧ errOut (GithubClaude.delete_repository net pat o r) = false) ∧
    (∀ (pat : Option String) (u : String) (net : Net),
      GithubClaude.make_github_request net pat "GET" (GithubClaude.listEndpoint u) none
        = none →
      GithubClaude.list_repositories net pat u
          = .ok "No repositories found or error occurred."
        ∧ errOut (GithubClaude.list_repositories net pat u) = false) := by
  refine ⟨?_, ?_, ?_, ?_, ?_, ?_, ?_, ?_, ?_, ?_, ?_, ?_, ?_, ?_, ?_, ?_, ?_, ?_,
    ?_, ?_, ?_, ?_, ?_, ?_, ?_, ?_, ?_, ?_, ?_, ?_⟩
  · intro pat u e net h
    simp only [GithubServer.get_user_info, h, errOut]
    exact errMarked_error_prefix _ _ (by decide) (by decide)
  · intro pat u e s b net hr h
    simp only [GithubServer.get_user_info, h, hr, if_true, errOut]
    exact errMarked_error_prefix _ _ (by decide) (by decide)
  · intro pat u e s v net hnr h
    simp [GithubServer.get_user_info, h, hnr, errOut_formatUserData]
  · intro pat n d e p net h
    simp only [GithubServer.create_repository, h, errOut]
    exact errMarked_error_prefix _ _ (by decide) (by decide)
  · intro pat n d e p s b net hr h
    simp only [GithubServer.create_repository, h, hr, if_true, errOut]
    exact errMarked_error_prefix _ _ (by decide) (by decide)
  · intro pat n d e p s v net hnr h
    simp [GithubServer.create_repository, h, hnr, errOut_formatRepoCreated]
  · intro pat o r e net h
    simp only [GithubServer.delete_repository, h, errOut]
    exact errMarked_error_prefix _ _ (by decide) (by decide)
  · intro pat o r e s b net hr h
    simp only [GithubServer.delete_repository, h, hr, if_true, errOut]
    exact errMarked_error_prefix _ _ (by decide) (by decide)
  · intro pat o r e s b net hnr h
    simp only [GithubServer.delete_repository, h, hnr, Bool.false_eq_true, if_false, errOut]
    exact errMarked_deleteConfirm o r
  · intro pat o r t hd bs pb e net h
    simp only [GithubServer.create_pull_request, h, errOut]
    exact errMarked_error_prefix _ _ (by decide) (by decide)
  · intro pat o r t hd bs pb e s b net hr h
    simp only [GithubServer.create_pull_request, h, hr, if_true, errOut]
    exact errMarked_error_prefix _ _ (by decide) (by decide)
  · intro pat o r t hd bs pb e s v net hnr h
    simp [GithubServer.create_pull_request, h, hnr, errOut_formatPrCreated]
  · intro pat o r pn m e net h
    simp only [GithubServer.merge_pull_request, h, errOut]
    exact errMarked_error_prefix _ _ (by decide) (by decide)
  · intro pat o r pn m e s b net hr h
    simp only [GithubServer.merge_pull_request, h, hr, if_true, errOut]
    exact errMarked_error_prefix _ _ (by decide) (by decide)
  · intro pat o r pn m e s v net hnr h
    simp [GithubServer.merge_pull_request, h, hnr, errOut_formatPrMerged]
  · intro pat u e net h
    simp only [GithubServer.list_repositories, h, errOut]
    exact errMarked_error_prefix _ _ (by decide) (by decide)
  · intro pat u e s b net hr h
    simp only [GithubServer.list_repositories, h, hr, if_true, errOut]
    exact errMarked_error_prefix _ _ (by decide) (by decide)
  · intro pat u e s v net hnr h
    cases hf : pyFalsy v with
    | true =>
      simp only [GithubServer.list_repositories, h, hnr, Bool.false_eq_true, if_false, hf,
        if_true, errOut]
      decide
    | false =>
      simp [GithubServer.list_repositories, h, hnr, hf, errOut_formatRepoList]
  · intro pat mth ep e j net h
    simp [GithubClaude.make_github_request, h]
  · intro pat mth ep e j s b net h2 h
    simp [GithubClaude.make_github_request, h, h2]
  · intro pat u net h
    simp only [GithubClaude.github_user_info, h, errOut]
    decide
  · intro pat u e s v net h2 h hf
    simp [GithubClaude.github_user_info, GithubClaude.make_github_request, h, h2, hf,
      asReturned_of_not_falsy _ hf, errOut_formatUserData]
  · intro pat n d p net h
    simp only [GithubClaude.create_repository, h, errOut]
    decide
  · intro pat n d e p s v net h2 h hf
    simp [GithubClaude.create_repository, GithubClaude.make_github_request, h, h2, hf,
      asReturned_of_not_falsy _ hf, errOut_formatRepoCreated]
  · intro pat o r t hd bs pb net h
    simp only [GithubClaude.create_pull_request, h, errOut]
    decide
  · intro pat o r t hd bs pb e s v net h2 h hf
    simp [GithubClaude.create_pull_request, GithubClaude.make_github_request, h, h2, hf,
      asReturned_of_not_falsy _ hf, errOut_formatPrCreated]
  · intro pat o r pn m net h
    simp only [GithubClaude.merge_pull_request, h, errOut]
    decide
  · intro pat o r pn m e s v net h2 h hf
    simp [GithubClaude.merge_pull_request, GithubClaude.make_github_request, h, h2, hf,
      asReturned_of_not_falsy _ hf, errOut_formatPrMerged]
  · intro pat o r net h
    refine ⟨?_, ?_⟩
    · simp [GithubClaude.delete_repository, h]
    · simp only [GithubClaude.delete_repository, h, errOut]
      exact errMarked_deleteConfirm o r
  · intro pat u net h
    refine ⟨?_, ?_⟩
    · simp [GithubClaude.list_repositories, h]
    · simp only [GithubClaude.list_repositories, h, errOut]
      decide

/-- C3 witness: concrete instances — a synchronous transport failure and
404 carry the marker, a synchronous 200 object body does not, and an
asynchronous transport failure carries the fixed marked error string. -/
theorem C3_error_marker_amended_witness :
    errOut (GithubServer.get_user_info (fun _ => .transportError "refused") none "u") = true
      ∧ errOut (GithubServer.get_user_info
          (fun _ => .response 404 "404 Client Error" (.malformed "x")) none "u") = true
      ∧ errOut (GithubServer.get_user_info
          (fun _ => .response 200 "" (.json (.obj [("login", .str "u")]))) none "u") = false
      ∧ errOut (GithubClaude.github_user_info (fun _ => .transportError "refused") none "u")
        = true :=
  ⟨C3_error_marker_amended.1 none "u" "refused" _ rfl,
   C3_error_marker_amended.2.1 none "u" "404 Client Error" 404 (.malformed "x") _
     (by decide) rfl,
   C3_error_marker_amended.2.2.1 none "u" "" 200 (.obj [("login", .str "u")]) _
     (by decide) rfl,
   (C3_error_marker_amended.2.2.2.2.2.2.2.2.2.2.2.2.2.2.2.2.2.2.2.2.1) none "u" _
     (C3_error_marker_amended.2.2.2.2.2.2.2.2.2.2.2.2.2.2.2.2.2.2.1 none "GET"
       "/users/u" "refused" none _ rfl)⟩

/-- C4 counterexample: the claim says every call returns exactly one
string and no exception propagates, but a 2xx response whose JSON body
is a truthy non-object (here the array [1]) makes the f-string call
.get on a list: AttributeError propagates past the operation boundary
in both variants (modelled as the .error result). -/
theorem C4_no_exception_counterexample :
    GithubClaude.github_user_info
        (fun _ => .response 200 "" (.json (.arr [.int 1]))) none "octocat"
      = .error attrErrorMsg
      ∧ GithubServer.get_user_info
          (fun _ => .response 200 "" (.json (.arr [.int 1]))) none "octocat"
        = .error attrErrorMsg := ⟨rfl, rfl⟩

/-- C4 amended: every operation returns exactly one string for every
transport failure, every rejected status, every unparseable or absent
body, and every 2xx body of the shape the operation consumes (an
object — or, for list_repositories, a falsy value or an array of
objects; delete_repository and hello_world are unconditional); a 2xx
body that is truthy but of the wrong JSON type instead raises an
AttributeError or TypeError past the boundary, as the counterexample
shows. -/
theorem C4_returns_single_string_amended :
    (∀ (pat : Option String) (u : String) (net : Net),
      TameOutcome is2xx (fun v => pyFalsy v || isObjB v)
        (net (GithubClaude.mkRequest pat "GET" ("/users/" ++ u) none)) →
      isOk (GithubClaude.github_user_info net pat u) = true) ∧
    (∀ (pat : Option String) (n d : String) (p : Bool) (net : Net),
      TameOutcome is2xx (fun v => pyFalsy v || isObjB v)
        (net (GithubClaude.mkRequest pat "POST" "/user/repos"
          (some (createRepoPayload n d p)))) →
      isOk (GithubClaude.create_repository net pat n d p) = true) ∧
    (∀ (pat : Option String) (o r : String) (net : Net),
      isOk (GithubClaude.delete_repository net pat o r) = true) ∧
    (∀ (pat : Option String) (o r t hd bs pb : String) (net : Net),
      TameOutcome is2xx (fun v => pyFalsy v || isObjB v)
        (net (GithubClaude.mkRequest pat "POST" ("/repos/" ++ o ++ "/" ++ r ++ "/pulls")
          (some (createPrPayload t hd bs pb)))) →
      isOk (GithubClaude.create_pull_request net pat o r t hd bs pb) = true) ∧
    (∀ (pat : Option String) (o r : String) (pn : Int) (m : String) (net : Net),
      TameOutcome is2xx (fun v => pyFalsy v || isObjB v)
        (net (GithubClaude.mkRequest pat "PUT"
          ("/repos/" ++ o ++ "/" ++ r ++ "/pulls/" ++ toString pn ++ "/merge")
          (some (mergePayload m)))) →
      isOk (GithubClaude.merge_pull_request net pat o r pn m) = true) ∧
    (∀ (pat : Option String) (u : String) (net : Net),
      TameOutcome is2xx (fun v => pyFalsy v || okListB v)
        (net (GithubClaude.mkRequest pat "GET" (GithubClaude.listEndpoint u) none)) →
      isOk (GithubClaude.list_repositories net pat u) = true) ∧
    (∀ nm : String, GithubClaude.hello_world nm = "Hello, " ++ nm ++ "!") ∧
    (∀ (pat : Option String) (u : String) (net : Net),
      TameOutcome (fun s => !requestsRaises s) isObjB
        (net (GithubServer.mkRequest pat "GET"
          ("https://api.github.com/users/" ++ u) none)) →
      isOk (GithubServer.get_user_info net pat u) = true) ∧
    (∀ (pat : Option String) (n d : String) (p : Bool) (net : Net),
      TameOutcome (fun s => !requestsRaises s) isObjB
        (net (GithubServer.mkRequest pat "POST" "https://api.github.com/user/repos"
          (some (createRepoPayload n d p)))) →
      isOk (GithubServer.create_repository net pat n d p) = true) ∧
    (∀ (pat : Option String) (o r : String) (net : Net),
      isOk (GithubServer.delete_repository net pat o r) = true) ∧
    (∀ (pat : Option String) (o r t hd bs pb : String) (net : Net),
      TameOutcome (fun s => !requestsRaises s) isObjB
        (net (GithubServer.mkRequest pat "POST"
          ("https://api.github.com/repos/" ++ o ++ "/" ++ r ++ "/pulls")
          (some (createPrPayload t hd bs pb)))) →
      isOk (GithubServer.create_pull_request net pat o r t hd bs pb) = true) ∧
    (∀ (pat : Option String) (o r : String) (pn : Int) (m : String) (net : Net),
      TameOutcome (fun s => !requestsRaises s) isObjB
        (net (GithubServer.mkRequest pat "PUT"
          ("https://api.github.com/repos/" ++ o ++ "/" ++ r ++ "/pulls/"
            ++ toString pn ++ "/merge")
          (some (mergePayload m)))) →
      isOk (GithubServer.merge_pull_request net pat o r pn m) = true) ∧
    (∀ (pat : Option String) (u : String) (net : Net),
      TameOutcome (fun s => !requestsRaises s) (fun v => pyFalsy v || okListB v)
        (net (GithubServer.mkRequest pat "GET" (GithubServer.listUrl u) none)) →
      isOk (GithubServer.list_repositories net pat u) = true) ∧
    (∀ nm : String, GithubServer.hello_world nm = "Hello, " ++ nm ++ "!") := by
  refine ⟨?_, ?_, ?_, ?_, ?_, ?_, fun _ => rfl, ?_, ?_, ?_, ?_, ?_, ?_, fun _ => rfl⟩
  · intro pat u net h
    cases ho : net (GithubClaude.mkRequest pat "GET" ("/users/" ++ u) none) with
    | transportError e =>
      simp [GithubClaude.github_user_info, GithubClaude.make_github_request, ho, isOk]
    | response s e b =>
      rw [ho] at h
      cases b with
      | malformed m =>
        cases h2 : is2xx s <;>
          simp [GithubClaude.github_user_info, GithubClaude.make_github_request, ho, h2, isOk]
      | json v =>
        cases h2 : is2xx s with
        | false =>
          simp [GithubClaude.github_user_info, GithubClaude.make_github_request, ho, h2, isOk]
        | true =>
          have hs := h h2
          cases hf : pyFalsy v with
          | true =>
            cases v <;>
              simp [GithubClaude.github_user_info, GithubClaude.make_github_request,
                GithubClaude.asReturned, ho, h2, hf, isOk]
          | false =>
            simp only [hf, Bool.false_or] at hs
            simp [GithubClaude.github_user_info, GithubClaude.make_github_request, ho, h2,
              hf, asReturned_of_not_falsy _ hf, isOk_formatUserData v hs]
  · intro pat n d p net h
    cases ho : net (GithubClaude.mkRequest pat "POST" "/user/repos"
        (some (createRepoPayload n d p))) with
    | transportError e =>
      simp [GithubClaude.create_repository, GithubClaude.make_github_request, ho, isOk]
    | response s e b =>
      rw [ho] at h
      cases b with
      | malformed m =>
        cases h2 : is2xx s <;>
          simp [GithubClaude.create_repository, GithubClaude.make_github_request, ho, h2, isOk]
      | json v =>
        cases h2 : is2xx s with
        | false =>
          simp [GithubClaude.create_repository, GithubClaude.make_github_request, ho, h2, isOk]
        | true =>
          have hs := h h2
          cases hf : pyFalsy v with
          | true =>
            cases v <;>
              simp [GithubClaude.create_repository, GithubClaude.make_github_request,
                GithubClaude.asReturned, ho, h2, hf, isOk]
          | false =>
            simp only [hf, Bool.false_or] at hs
            simp [GithubClaude.create_repository, GithubClaude.make_github_request, ho, h2,
              hf, asReturned_of_not_falsy _ hf, isOk_formatRepoCreated v hs]
  · intro pat o r net
    cases ho : net (GithubClaude.mkRequest pat "DELETE" ("/repos/" ++ o ++ "/" ++ r) none) with
    | transportError e =>
      simp [GithubClaude.delete_repository, GithubClaude.make_github_request, ho, isOk]
    | response s e b =>
      cases b with
      | malformed m =>
        cases h2 : is2xx s <;>
          simp [GithubClaude.delete_repository, GithubClaude.make_github_request, ho, h2, isOk]
      | json v =>
        cases h2 : is2xx s <;> cases v <;>
          simp [GithubClaude.delete_repository, GithubClaude.make_github_request,
            GithubClaude.asReturned, ho, h2, isOk]
  · intro pat o r t hd bs pb net h
    cases ho : net (GithubClaude.mkRequest pat "POST" ("/repos/" ++ o ++ "/" ++ r ++ "/pulls")
        (some (createPrPayload t hd bs pb))) with
    | transportError e =>
      simp [GithubClaude.create_pull_request, GithubClaude.make_github_request, ho, isOk]
    | response s e b =>
      rw [ho] at h
      cases b with
      | malformed m =>
        cases h2 : is2xx s <;>
          simp [GithubClaude.create_pull_request, GithubClaude.make_github_request, ho, h2,
            isOk]
      | json v =>
        cases h2 : is2xx s with
        | false =>
          simp [GithubClaude.create_pull_request, GithubClaude.make_github_request, ho, h2,
            isOk]
        | true =>
          have hs := h h2
          cases hf : pyFalsy v with
          | true =>
            cases v <;>
              simp [GithubClaude.create_pull_request, GithubClaude.make_github_request,
                GithubClaude.asReturned, ho, h2, hf, isOk]
          | false =>
            simp only [hf, Bool.false_or] at hs
            simp [GithubClaude.create_pull_request, GithubClaude.make_github_request, ho, h2,
              hf, asReturned_of_not_falsy _ hf, isOk_formatPrCreated v hs]
  · intro pat o r pn m net h
    cases ho : net (GithubClaude.mkRequest pat "PUT"
        ("/repos/" ++ o ++ "/" ++ r ++ "/pulls/" ++ toString pn ++ "/merge")
        (some (mergePayload m))) with
    | transportError e =>
      simp [GithubClaude.merge_pull_request, GithubClaude.make_github_request, ho, isOk]
    | response s e b =>
      rw [ho] at h
      cases b with
      | malformed m2 =>
        cases h2 : is2xx s <;>
          simp [GithubClaude.merge_pull_request, GithubClaude.make_github_request, ho, h2, isOk]
      | json v =>
        cases h2 : is2xx s with
        | false =>
          simp [GithubClaude.merge_pull_request, GithubClaude.make_github_request, ho, h2, isOk]
        | true =>
          have hs := h h2
          cases hf : pyFalsy v with
          | true =>
            cases v <;>
              simp [GithubClaude.merge_pull_request, GithubClaude.make_github_request,
                GithubClaude.asReturned, ho, h2, hf, isOk]
          | false =>
            simp only [hf, Bool.false_or] at hs
            simp [GithubClaude.merge_pull_request, GithubClaude.make_github_request, ho, h2,
              hf, asReturned_of_not_falsy _ hf, isOk_formatPrMerged pn v hs]
  · intro pat u net h
    cases ho : net (GithubClaude.mkRequest pat "GET" (GithubClaude.listEndpoint u) none) with
    | transportError e =>
      simp [GithubClaude.list_repositories, GithubClaude.make_github_request, ho, isOk]
    | response s e b =>
      rw [ho] at h
      cases b with
      | malformed m =>
        cases h2 : is2xx s <;>
          simp [GithubClaude.list_repositories, GithubClaude.make_github_request, ho, h2, isOk]
      | json v =>
        cases h2 : is2xx s with
        | false =>
          simp [GithubClaude.list_repositories, GithubClaude.make_github_request, ho, h2, isOk]
        | true =>
          have hs := h h2
          cases hf : pyFalsy v with
          | true =>
            cases v <;>
              simp [GithubClaude.list_repositories, GithubClaude.make_github_request,
                GithubClaude.asReturned, ho, h2, hf, isOk]
          | false =>
            simp only [hf, Bool.false_or] at hs
            simp [GithubClaude.list_repositories, GithubClaude.make_github_request, ho, h2,
              hf, asReturned_of_not_falsy _ hf, isOk_formatRepoList v hs]
  · intro pat u net h
    cases ho : net (GithubServer.mkRequest pat "GET"
        ("https://api.github.com/users/" ++ u) none) with
    | transportError e => simp [GithubServer.get_user_info, ho, isOk]
    | response s e b =>
      rw [ho] at h
      cases hr : requestsRaises s with
      | true => simp [GithubServer.get_user_info, ho, hr, isOk]
      | false =>
        cases b with
        | malformed m => simp [GithubServer.get_user_info, ho, hr, isOk]
        | json v =>
          have hs : isObjB v = true := h (by simp [hr])
          simp [GithubServer.get_user_info, ho, hr, isOk_formatUserData v hs]
  · intro pat n d p net h
    cases ho : net (GithubServer.mkRequest pat "POST" "https://api.github.com/user/repos"
        (some (createRepoPayload n d p))) with
    | transportError e => simp [GithubServer.create_repository, ho, isOk]
    | response s e b =>
      rw [ho] at h
      cases hr : requestsRaises s with
      | true => simp [GithubServer.create_repository, ho, hr, isOk]
      | false =>
        cases b with
        | malformed m => simp [GithubServer.create_repository, ho, hr, isOk]
        | json v =>
          have hs : isObjB v = true := h (by simp [hr])
          simp [GithubServer.create_repository, ho, hr, isOk_formatRepoCreated v hs]
  · intro pat o r net
    cases ho : net (GithubServer.mkRequest pat "DELETE"
        ("https://api.github.com/repos/" ++ o ++ "/" ++ r) none) with
    | transportError e => simp [GithubServer.delete_repository, ho, isOk]
    | response s e b =>
      cases hr : requestsRaises s <;> simp [GithubServer.delete_repository, ho, hr, isOk]
  · intro pat o r t hd bs pb net h
    cases ho : net (GithubServer.mkRequest pat "POST"
        ("https://api.github.com/repos/" ++ o ++ "/" ++ r ++ "/pulls")
        (some (createPrPayload t hd bs pb))) with
    | transportError e => simp [GithubServer.create_pull_request, ho, isOk]
    | response s e b =>
      rw [ho] at h
      cases hr : requestsRaises s with
      | true => simp [GithubServer.create_pull_request, ho, hr, isOk]
      | false =>
        cases b with
        | malformed m => simp [GithubServer.create_pull_request, ho, hr, isOk]
        | json v =>
          have hs : isObjB v = true := h (by simp [hr])
          simp [GithubServer.create_pull_request, ho, hr, isOk_formatPrCreated v hs]
  · intro pat o r pn m net h
    cases ho : net (GithubServer.mkRequest pat "PUT"
        ("https://api.github.com/repos/" ++ o ++ "/" ++ r ++ "/pulls/"
          ++ toString pn ++ "/merge")
        (some (mergePayload m))) with
    | transportError e => simp [GithubServer.merge_pull_request, ho, isOk]
    | response s e b =>
      rw [ho] at h
      cases hr : requestsRaises s with
      | true => simp [GithubServer.merge_pull_request, ho, hr, isOk]
      | false =>
        cases b with
        | malformed m2 => simp [GithubServer.merge_pull_request, ho, hr, isOk]
        | json v =>
          have hs : isObjB v = true := h (by simp [hr])
          simp [GithubServer.merge_pull_request, ho, hr, isOk_formatPrMerged pn v hs]
  · intro pat u net h
    cases ho : net (GithubServer.mkRequest pat "GET" (GithubServer.listUrl u) none) with
    | transportError e => simp [GithubServer.list_repositories, ho, isOk]
    | response s e b =>
      rw [ho] at h
      cases hr : requestsRaises s with
      | true => simp [GithubServer.list_repositories, ho, hr, isOk]
      | false =>
        cases b with
        | malformed m => simp [GithubServer.list_repositories, ho, hr, isOk]
        | json v =>
          have hs := h (by simp [hr])
          cases hf : pyFalsy v with
          | true => simp [GithubServer.list_repositories, ho, hr, hf, isOk]
          | false =>
            simp only [hf, Bool.false_or] at hs
            simp [GithubServer.list_repositories, ho, hr, hf, isOk_formatRepoList v hs]

/-- C4 witness: concrete instances of the amended claim — a transport
failure, a 404 with unparseable body, and a 200 object body each yield a
returned string in both variants. -/
theorem C4_returns_single_string_amended_witness :
    isOk (GithubClaude.github_user_info (fun _ => .transportError "refused") none "u") = true
      ∧ isOk (GithubClaude.github_user_info
          (fun _ => .response 200 "" (.json (.obj [("login", .str "u")]))) none "u") = true
      ∧ isOk (GithubServer.get_user_info
          (fun _ => .response 404 "404 Client Error" (.malformed "x")) none "u") = true
      ∧ isOk (GithubServer.get_user_info
          (fun _ => .response 200 "" (.json (.obj [("login", .str "u")]))) none "u") = true :=
  ⟨C4_returns_single_string_amended.1 none "u" _ (by trivial),
   C4_returns_single_string_amended.1 none "u" _ (fun _ => by decide),
   C4_returns_single_string_amended.2.2.2.2.2.2.2.1 none "u" _ (by trivial),
   C4_returns_single_string_amended.2.2.2.2.2.2.2.1 none "u" _ (fun _ => by decide)⟩
